import Mathlib

/-!
# Verification of the `state_machine` FSM engine (`sm.c` / `sm.h`)

A shallow embedding of the cooperative finite-state-machine engine.

Modelling conventions:
* `SM_TIME_t` is `uint32_t` (the default configuration in `sm.h`): tick values
  are `Nat`s and every read of the tick source or store into a tick field is
  reduced modulo `TMOD = 2^32`; the C unsigned subtraction `a - b` is `tsub`.
* `uint32_t` statistics counters wrap modulo `U32MOD = 2^32`.
* State references (`SM_states`, `ActualState`, `PrevState`) are pointers into
  the caller-owned state array in C; here the table is a total function
  `Nat → SM_state_t` and the current/previous state are indices, so the
  pointer-range check `SM_state_is_in_range` becomes an index bound and a
  `NULL` state pointer is represented by index `0` into the zeroed table.
* Entry/exec/exit/onTrans/onBreakTimeout behaviors are opaque user callbacks:
  a behavior is modelled by its presence flag (`Bool`, `false` = `NULL`
  function pointer), and an engine call returns, besides the status and the
  updated instance, the list of callback invocations it performed, each
  paired with the instance value the callback receives at call time.
* The user context `ctx` (`void *`) is modelled as a `Nat` pointer value
  (`0` = `NULL`).
-/

namespace StateMachine

/-- `2^32`: the modulus of `SM_TIME_t` (`uint32_t`, the default time base). -/
def TMOD : Nat := 4294967296

/-- `2^32`: the modulus of the `uint32_t` statistics counters. -/
def U32MOD : Nat := 4294967296

/-- `2^16`: the modulus of `uint16_t` (state indices, `NumberOfStates`). -/
def U16MOD : Nat := 65536

/-- `UINT16_MAX`, the sentinel returned by `SM_get_state_number` on `NULL`. -/
def UINT16_MAX : Nat := 65535

/-- C unsigned 32-bit subtraction `a - b` (wraparound-safe tick difference). -/
def tsub (a b : Nat) : Nat := (a + (TMOD - b % TMOD)) % TMOD

/-- The macro `SM_GET_TICK`: a read of the externally maintained `uint32_t`
tick cell.  The ambient mathematical time `now` enters the engine only through
this reduction. -/
def SM_GET_TICK (now : Nat) : Nat := now % TMOD

/-- `SM_operate_status` from `sm.h`, plus `SM_TRANS_NULL_PTR`, which `sm.c`
returns from `SM_Trans` for a `NULL` instance although `sm.h`'s enum does not
declare it (a discrepancy of the source itself). -/
inductive SM_operate_status where
  | SM_OK
  | SM_OPRT_INSTANCE_DOES_NOT_EXIST
  | SM_INIT_ERR
  | SM_EXEC_DELAYED
  | SM_EXEC_NULL_PTR
  | SM_TRANS_ERR
  | SM_TRANS_LOCKED
  | SM_WRONG_STATE
  | SM_TRANS_NULL_PTR
  deriving DecidableEq, Repr

/-- `SM_transision_mode` from `sm.h` (source spelling kept). -/
inductive SM_transision_mode where
  | SM_TRANS_ENTRY_EXIT
  | SM_TRANS_ENTRY
  | SM_TRANS_EXIT
  | SM_TRANS_FAST
  deriving DecidableEq, Repr

/-- `SM_state_t`: one table entry; each field records whether the
corresponding optional behavior (function pointer) is present (`true`) or
`NULL` (`false`). -/
@[ext]
structure SM_state_t where
  onEntry : Bool
  onExec : Bool
  onExit : Bool
  deriving DecidableEq, Repr

/-- The all-`NULL` state descriptor (image of a zeroed/`NULL` table slot). -/
def SM_state_zero : SM_state_t := ⟨false, false, false⟩

/-- `SM_instance_t`: one running machine.  Field names follow `sm.h`
(`SM_timestamp_t`, `SM_control_flags_t` and `SM_stats_t` are flattened). -/
@[ext]
structure SM_instance_t where
  SM_states : Nat → SM_state_t
  ActualState : Nat
  PrevState : Nat
  NumberOfStates : Nat
  TransTick : Nat
  lastExecTick : Nat
  ExecBlockTick : Nat
  TransLockTick : Nat
  DelayTime : Nat
  ExecBlockTimeout : Nat
  TransLockTimeout : Nat
  ExecBreak : Bool
  TransitionLock : Bool
  StateExecutionCounter : Nat
  MachineExecutionCounter : Nat
  TransCounter : Nat
  onBreakTimeout : Bool
  onTrans : Bool
  ctx : Nat

/-- Identifies which user callback the engine invoked. -/
inductive SM_callback where
  | entry (i : Nat)
  | exec (i : Nat)
  | exit (i : Nat)
  | onTrans
  | onBreakTimeout
  deriving DecidableEq, Repr

/-- One callback invocation: which callback, and the instance value the
callback receives (the C callback gets a pointer `me` to the live instance). -/
structure SM_event where
  cb : SM_callback
  seen : SM_instance_t

/-- The callbacks of an event trace, in invocation order. -/
def calls (evs : List SM_event) : List SM_callback := evs.map SM_event.cb

/-- Result of an engine call on a (non-`NULL`) instance: returned status,
the instance after the call, and the callback invocations performed. -/
structure ExecResult where
  status : SM_operate_status
  inst : SM_instance_t
  events : List SM_event

/-- Result of an API call through a possibly-`NULL` instance pointer. -/
structure OptResult where
  status : SM_operate_status
  inst : Option SM_instance_t
  events : List SM_event

/-- `SM_reset_instance`: zero-fills every field of the instance
(`NULL` pointers become the zero table / index 0 / absent callbacks). -/
def SM_reset_instance (_s : SM_instance_t) : SM_instance_t :=
  { SM_states := fun _ => SM_state_zero
    ActualState := 0
    PrevState := 0
    NumberOfStates := 0
    TransTick := 0
    lastExecTick := 0
    ExecBlockTick := 0
    TransLockTick := 0
    DelayTime := 0
    ExecBlockTimeout := 0
    TransLockTimeout := 0
    ExecBreak := false
    TransitionLock := false
    StateExecutionCounter := 0
    MachineExecutionCounter := 0
    TransCounter := 0
    onBreakTimeout := false
    onTrans := false
    ctx := 0 }

/-- `SM_state_is_in_range`: the pointer-range check
`SM_states <= p && p < SM_states + NumberOfStates`; on indices the lower
bound is vacuous and the check is `i < NumberOfStates`. -/
def SM_state_is_in_range (s : SM_instance_t) (i : Nat) : SM_operate_status :=
  if i < s.NumberOfStates then .SM_OK else .SM_WRONG_STATE

/-- `SM_init` from `sm.c`: validates the arguments, zero-fills the instance,
binds the table, sets `ActualState` to entry `FirstState`, stores `ctx`, and
finally invokes the initial state's `onEntry` when present. -/
def SM_init (inst : Option SM_instance_t) (tbl : Option (Nat → SM_state_t))
    (FirstState NumberOfStates : Nat) (ctx : Nat) : OptResult :=
  match inst, tbl with
  | none, _ => ⟨.SM_INIT_ERR, none, []⟩
  | some s, none => ⟨.SM_INIT_ERR, some s, []⟩
  | some s, some states =>
    if NumberOfStates ≤ FirstState ∨ NumberOfStates = 0 then
      ⟨.SM_INIT_ERR, some s, []⟩
    else
      let s1 := SM_reset_instance s
      let s2 := { s1 with
                  SM_states := states
                  ActualState := FirstState
                  NumberOfStates := NumberOfStates
                  ctx := ctx }
      if (states FirstState).onEntry then
        ⟨.SM_OK, some s2, [⟨.entry FirstState, s2⟩]⟩
      else
        ⟨.SM_OK, some s2, []⟩

/-- The break auto-expiry prologue of `SM_Execution` (`sm.c` lines 221–230):
if `ExecBreak` is armed and its window has elapsed, clear the flag and then
invoke `onBreakTimeout` when registered. -/
def SM_break_step (now : Nat) (s : SM_instance_t) :
    SM_instance_t × List SM_event :=
  if s.ExecBreak = true ∧
      tsub (SM_GET_TICK now) s.ExecBlockTick ≥ s.ExecBlockTimeout then
    ({ s with ExecBreak := false },
      if s.onBreakTimeout then
        [⟨.onBreakTimeout, { s with ExecBreak := false }⟩]
      else [])
  else (s, [])

/-- `SM_Execution` on a non-`NULL` instance (`sm.c` lines 221–257): break
auto-expiry, then the missing-behavior check, then the break/delay gate, then
the range check, and on the success path the tick/delay update, the exec
behavior invocation and the counter increments. -/
def SM_Execution_core (now : Nat) (s0 : SM_instance_t) : ExecResult :=
  let p := SM_break_step now s0
  let s := p.1
  let evs := p.2
  if (s.SM_states s.ActualState).onExec = true then
    if (s.DelayTime = 0 ∨
          tsub (SM_GET_TICK now) s.lastExecTick ≥ s.DelayTime) ∧
        s.ExecBreak = false then
      if SM_state_is_in_range s s.ActualState ≠ .SM_OK then
        ⟨.SM_WRONG_STATE, s, evs⟩
      else
        let s1 := { s with lastExecTick := SM_GET_TICK now, DelayTime := 0 }
        ⟨.SM_OK,
          { s1 with
            StateExecutionCounter := (s1.StateExecutionCounter + 1) % U32MOD
            MachineExecutionCounter := (s1.MachineExecutionCounter + 1) % U32MOD },
          evs ++ [⟨.exec s.ActualState, s1⟩]⟩
    else
      ⟨.SM_EXEC_DELAYED, s, evs⟩
  else
    ⟨.SM_EXEC_NULL_PTR, s, evs⟩

/-- `SM_Execution` including the `NULL`-instance check (`sm.c` line 216). -/
def SM_Execution (now : Nat) (inst : Option SM_instance_t) : OptResult :=
  match inst with
  | none => ⟨.SM_EXEC_NULL_PTR, none, []⟩
  | some s =>
    let r := SM_Execution_core now s
    ⟨r.status, some r.inst, r.events⟩

/-- The common success tail of `SM_Trans` (`sm.c` lines 357–367): record
`TransTick`, invoke `onTrans` when registered, reset the per-state exec
counter and increment the transition counter. -/
def SM_Trans_finish (now : Nat) (s : SM_instance_t) (evs : List SM_event) :
    ExecResult :=
  let s1 := { s with TransTick := SM_GET_TICK now }
  let evs1 := evs ++ (if s1.onTrans then [⟨.onTrans, s1⟩] else [])
  ⟨.SM_OK,
    { s1 with
      StateExecutionCounter := 0
      TransCounter := (s1.TransCounter + 1) % U32MOD },
    evs1⟩

/-- The `switch (mode)` of `SM_Trans` (`sm.c` lines 301–355): per-mode
callback-presence checks, the exit call (pre-swap), the `PrevState` /
`ActualState` update, and the entry call (post-swap). -/
def SM_Trans_dispatch (now : Nat) (s : SM_instance_t)
    (mode : SM_transision_mode) (State : Nat) : ExecResult :=
  match mode with
  | .SM_TRANS_ENTRY_EXIT =>
    if (s.SM_states s.ActualState).onExit = true ∧
        (s.SM_states State).onEntry = true then
      let evExit : SM_event := ⟨.exit s.ActualState, s⟩
      let s1 := { s with PrevState := s.ActualState, ActualState := State }
      SM_Trans_finish now s1 [evExit, ⟨.entry State, s1⟩]
    else
      ⟨.SM_TRANS_ERR, s, []⟩
  | .SM_TRANS_ENTRY =>
    if (s.SM_states State).onEntry = false then
      ⟨.SM_TRANS_ERR, s, []⟩
    else
      let s1 := { s with PrevState := s.ActualState, ActualState := State }
      SM_Trans_finish now s1 [⟨.entry State, s1⟩]
  | .SM_TRANS_EXIT =>
    if (s.SM_states s.ActualState).onExit = true then
      let evExit : SM_event := ⟨.exit s.ActualState, s⟩
      let s1 := { s with PrevState := s.ActualState, ActualState := State }
      SM_Trans_finish now s1 [evExit]
    else
      ⟨.SM_TRANS_ERR, s, []⟩
  | .SM_TRANS_FAST =>
    let s1 := { s with PrevState := s.ActualState, ActualState := State }
    SM_Trans_finish now s1 []

/-- `SM_Trans` on a non-`NULL` instance (`sm.c` lines 282–367): the target
bound check, then the transition-lock gate with lazy expiry, then the mode
dispatch. -/
def SM_Trans_core (now : Nat) (s : SM_instance_t)
    (mode : SM_transision_mode) (State : Nat) : ExecResult :=
  if s.NumberOfStates ≤ State then
    ⟨.SM_TRANS_ERR, s, []⟩
  else if s.TransitionLock = true then
    if tsub (SM_GET_TICK now) s.TransLockTick ≥ s.TransLockTimeout then
      SM_Trans_dispatch now { s with TransitionLock := false } mode State
    else
      ⟨.SM_TRANS_LOCKED, s, []⟩
  else
    SM_Trans_dispatch now s mode State

/-- `SM_Trans` including the `NULL`-instance check (`sm.c` line 277). -/
def SM_Trans (now : Nat) (inst : Option SM_instance_t)
    (mode : SM_transision_mode) (State : Nat) : OptResult :=
  match inst with
  | none => ⟨.SM_TRANS_NULL_PTR, none, []⟩
  | some s =>
    let r := SM_Trans_core now s mode State
    ⟨r.status, some r.inst, r.events⟩

/-- `SM_exec_break` on a non-`NULL` instance (`sm.c` lines 388–392). -/
def SM_exec_break_core (now : Nat) (s : SM_instance_t) (Timeout : Nat) :
    ExecResult :=
  ⟨.SM_OK,
    { s with
      ExecBlockTick := SM_GET_TICK now
      ExecBlockTimeout := Timeout
      ExecBreak := true },
    []⟩

/-- `SM_exec_break` including the `NULL`-instance check. -/
def SM_exec_break (now : Nat) (inst : Option SM_instance_t) (Timeout : Nat) :
    OptResult :=
  match inst with
  | none => ⟨.SM_OPRT_INSTANCE_DOES_NOT_EXIST, none, []⟩
  | some s =>
    let r := SM_exec_break_core now s Timeout
    ⟨r.status, some r.inst, r.events⟩

/-- `SM_exec_break_release` (`sm.c` lines 405–414). -/
def SM_exec_break_release (inst : Option SM_instance_t) : OptResult :=
  match inst with
  | none => ⟨.SM_OPRT_INSTANCE_DOES_NOT_EXIST, none, []⟩
  | some s => ⟨.SM_OK, some { s with ExecBreak := false }, []⟩

/-- `SM_trans_lock` on a non-`NULL` instance (`sm.c` lines 434–438). -/
def SM_trans_lock_core (now : Nat) (s : SM_instance_t) (Timeout : Nat) :
    ExecResult :=
  ⟨.SM_OK,
    { s with
      TransLockTick := SM_GET_TICK now
      TransLockTimeout := Timeout
      TransitionLock := true },
    []⟩

/-- `SM_trans_lock` including the `NULL`-instance check. -/
def SM_trans_lock (now : Nat) (inst : Option SM_instance_t) (Timeout : Nat) :
    OptResult :=
  match inst with
  | none => ⟨.SM_OPRT_INSTANCE_DOES_NOT_EXIST, none, []⟩
  | some s =>
    let r := SM_trans_lock_core now s Timeout
    ⟨r.status, some r.inst, r.events⟩

/-- `SM_trans_lock_release` (`sm.c` lines 450–459). -/
def SM_trans_lock_release (inst : Option SM_instance_t) : OptResult :=
  match inst with
  | none => ⟨.SM_OPRT_INSTANCE_DOES_NOT_EXIST, none, []⟩
  | some s => ⟨.SM_OK, some { s with TransitionLock := false }, []⟩

/-- `SM_exec_delay` on a non-`NULL` instance (`sm.c` line 479). -/
def SM_exec_delay_core (s : SM_instance_t) (Delay : Nat) : ExecResult :=
  ⟨.SM_OK, { s with DelayTime := Delay }, []⟩

/-- `SM_exec_delay` including the `NULL`-instance check. -/
def SM_exec_delay (inst : Option SM_instance_t) (Delay : Nat) : OptResult :=
  match inst with
  | none => ⟨.SM_OPRT_INSTANCE_DOES_NOT_EXIST, none, []⟩
  | some s =>
    let r := SM_exec_delay_core s Delay
    ⟨r.status, some r.inst, r.events⟩

/-- `SM_get_state_number` (`sm.c` lines 489–497): the sentinel on a `NULL`
instance, otherwise the pointer offset `ActualState - SM_states` cast to
`uint16_t`.  The C `ActualState == NULL` sub-check has no separate image
here because a state reference is an index (`NULL` is zero-filled to 0). -/
def SM_get_state_number (inst : Option SM_instance_t) : Nat :=
  match inst with
  | none => UINT16_MAX
  | some s => s.ActualState % U16MOD

/-- `SM_get_exec_counter_state` (`sm.c` lines 521–529). -/
def SM_get_exec_counter_state (inst : Option SM_instance_t) : Nat :=
  match inst with
  | none => U32MOD - 1
  | some s => s.StateExecutionCounter

/-- `SM_get_exec_counter_machine` (`sm.c` lines 537–545). -/
def SM_get_exec_counter_machine (inst : Option SM_instance_t) : Nat :=
  match inst with
  | none => U32MOD - 1
  | some s => s.MachineExecutionCounter

/-- `SM_get_trans_counter` (`sm.c` lines 553–561). -/
def SM_get_trans_counter (inst : Option SM_instance_t) : Nat :=
  match inst with
  | none => U32MOD - 1
  | some s => s.TransCounter

/-- The "required callback is absent" condition of the `SM_Trans` mode
dispatch, as the claims state it (to be compared with `SM_Trans_dispatch`):
EntryExit needs both the current state's exit and the target's entry, Entry
the target's entry, Exit the current state's exit, Fast nothing. -/
def SM_required_absent (s : SM_instance_t) (mode : SM_transision_mode)
    (State : Nat) : Prop :=
  match mode with
  | .SM_TRANS_ENTRY_EXIT =>
    ¬((s.SM_states s.ActualState).onExit = true ∧
      (s.SM_states State).onEntry = true)
  | .SM_TRANS_ENTRY => (s.SM_states State).onEntry = false
  | .SM_TRANS_EXIT => (s.SM_states s.ActualState).onExit = false
  | .SM_TRANS_FAST => False

/-! ## Tick arithmetic -/

theorem TMOD_pos : 0 < TMOD := by norm_num [TMOD]

theorem tsub_lt (a b : Nat) : tsub a b < TMOD := Nat.mod_lt _ TMOD_pos

theorem tsub_mod_left (a b : Nat) : tsub (a % TMOD) b = tsub a b := by
  unfold tsub
  exact Nat.mod_add_mod a TMOD _

theorem tsub_mod_right (a b : Nat) : tsub a (b % TMOD) = tsub a b := by
  unfold tsub
  rw [Nat.mod_mod_of_dvd b dvd_rfl]

theorem tsub_add_self (a k : Nat) : tsub (a + k) a = k % TMOD := by
  unfold tsub TMOD
  omega

/-! ## Concrete instances used as witnesses -/

/-- The zero-filled instance (image of a freshly reset record). -/
def instZero : SM_instance_t :=
  { SM_states := fun _ => SM_state_zero
    ActualState := 0
    PrevState := 0
    NumberOfStates := 0
    TransTick := 0
    lastExecTick := 0
    ExecBlockTick := 0
    TransLockTick := 0
    DelayTime := 0
    ExecBlockTimeout := 0
    TransLockTimeout := 0
    ExecBreak := false
    TransitionLock := false
    StateExecutionCounter := 0
    MachineExecutionCounter := 0
    TransCounter := 0
    onBreakTimeout := false
    onTrans := false
    ctx := 0 }

/-- A table whose every state has only an exec behavior. -/
def tblExec : Nat → SM_state_t := fun _ => ⟨false, true, false⟩

/-- A table whose every state has entry, exec and exit behaviors. -/
def tblFull : Nat → SM_state_t := fun _ => ⟨true, true, true⟩

/-- A two-state machine over `tblExec`, sitting in state 0. -/
def instExec : SM_instance_t :=
  { instZero with SM_states := tblExec, NumberOfStates := 2 }

/-- A two-state machine over `tblFull`, sitting in state 0. -/
def instFull : SM_instance_t :=
  { instZero with SM_states := tblFull, NumberOfStates := 2 }

/-! ## Claim C1 — entry behavior at initialization -/

/-- C1 (counterexample): the claim says a successful `SM_init` never invokes
an entry behavior; in this revision a valid initialization whose initial
state has `onEntry` present does invoke it (`sm.c` lines 146–149). -/
theorem C1_counterexample :
    (SM_init (some instZero) (some tblFull) 0 1 0).status = .SM_OK ∧
    calls (SM_init (some instZero) (some tblFull) 0 1 0).events =
      [SM_callback.entry 0] := by
  constructor <;> rfl

/-- C1 (amended): every successful initialization invokes the initial
state's `onEntry` exactly when it is present (and invokes nothing else);
the callback runs after the instance is fully set up. -/
theorem C1_init_invokes_entry (s : SM_instance_t) (tbl : Nat → SM_state_t)
    (F N c : Nat) (h : F < N) :
    (SM_init (some s) (some tbl) F N c).status = .SM_OK ∧
    calls (SM_init (some s) (some tbl) F N c).events =
      (if (tbl F).onEntry then [SM_callback.entry F] else []) := by
  have hcond : ¬(N ≤ F ∨ N = 0) := by omega
  cases h2 : (tbl F).onEntry <;> simp [SM_init, hcond, h2, calls]

/-- C1 (witness): the amended theorem applied to a concrete valid call. -/
theorem C1_witness :
    (0 : Nat) < 1 ∧
    ((SM_init (some instZero) (some tblExec) 0 1 0).status = .SM_OK ∧
      calls (SM_init (some instZero) (some tblExec) 0 1 0).events =
        (if (tblExec 0).onEntry then [SM_callback.entry 0] else [])) :=
  ⟨by decide, C1_init_invokes_entry instZero tblExec 0 1 0 (by decide)⟩

/-! ## Claim C9 — conflated null-pointer and missing-behavior statuses -/

/-- C9: `SM_Execution` returns the same status `SM_EXEC_NULL_PTR` for a
`NULL` instance as for an instance whose active state has no exec behavior,
so the two outcomes are indistinguishable from the status alone. -/
theorem C9_null_status_conflation (now : Nat) (s : SM_instance_t)
    (h : (s.SM_states s.ActualState).onExec = false) :
    (SM_Execution now none).status = .SM_EXEC_NULL_PTR ∧
    (SM_Execution now (some s)).status = .SM_EXEC_NULL_PTR := by
  refine ⟨rfl, ?_⟩
  by_cases hb : s.ExecBreak = true ∧
      tsub (SM_GET_TICK now) s.ExecBlockTick ≥ s.ExecBlockTimeout
  · simp [SM_Execution, SM_Execution_core, SM_break_step, hb, h]
  · simp [SM_Execution, SM_Execution_core, SM_break_step, hb, h]

/-- C9 (witness): the conflation at tick 0 on the zero-filled instance. -/
theorem C9_witness :
    (instZero.SM_states instZero.ActualState).onExec = false ∧
    ((SM_Execution 0 none).status = .SM_EXEC_NULL_PTR ∧
      (SM_Execution 0 (some instZero)).status = .SM_EXEC_NULL_PTR) :=
  ⟨rfl, C9_null_status_conflation 0 instZero rfl⟩

/-! ## Claim C10 — a zero delay never defers execution -/

/-- C10: `SM_exec_delay(0)` succeeds and cancels any pending delay: the
resulting `DelayTime` is 0, so the delay disjunct of the execution gate
holds at every tick, and (absent a break) an execution step on the
resulting instance is never reported `SM_EXEC_DELAYED`. -/
theorem C10_zero_delay (s : SM_instance_t) (now : Nat) :
    (SM_exec_delay (some s) 0).status = .SM_OK ∧
    (SM_exec_delay (some s) 0).inst = some { s with DelayTime := 0 } ∧
    ({ s with DelayTime := 0 }.DelayTime = 0 ∨
      tsub (SM_GET_TICK now) ({ s with DelayTime := 0 }).lastExecTick ≥
        ({ s with DelayTime := 0 }).DelayTime) ∧
    (s.ExecBreak = false → (s.SM_states s.ActualState).onExec = true →
      (SM_Execution_core now { s with DelayTime := 0 }).status ≠
        .SM_EXEC_DELAYED) := by
  refine ⟨rfl, rfl, Or.inl rfl, ?_⟩
  intro hbrk hexec
  simp only [SM_Execution_core, SM_break_step, SM_state_is_in_range,
    SM_GET_TICK, hbrk, hexec]
  simp [hbrk, hexec]
  split <;> simp_all

/-- C10 (witness): zero delay on the exec-only two-state machine at tick 7. -/
theorem C10_witness :
    instExec.ExecBreak = false ∧
    (instExec.SM_states instExec.ActualState).onExec = true ∧
    (SM_Execution_core 7 { instExec with DelayTime := 0 }).status ≠
      .SM_EXEC_DELAYED :=
  ⟨rfl, rfl, (C10_zero_delay instExec 7).2.2.2 rfl rfl⟩

/-! ## Claim C8 — initialization validation -/

/-- C8: `SM_init` fails with `SM_INIT_ERR` exactly when the instance or the
table is absent, `NumberOfStates` is zero, or `FirstState ≥ NumberOfStates`;
a failing call leaves the instance untouched, and a successful call yields
`SM_get_state_number = FirstState` with all three counters at 0. -/
theorem C8_init_validation (inst : Option SM_instance_t)
    (tbl : Option (Nat → SM_state_t)) (F N c : Nat) (hF : F < U16MOD) :
    ((SM_init inst tbl F N c).status = .SM_INIT_ERR ↔
      (inst = none ∨ tbl = none ∨ N = 0 ∨ N ≤ F)) ∧
    ((SM_init inst tbl F N c).status = .SM_INIT_ERR →
      (SM_init inst tbl F N c).inst = inst) ∧
    ((SM_init inst tbl F N c).status = .SM_OK →
      SM_get_state_number (SM_init inst tbl F N c).inst = F ∧
      SM_get_exec_counter_state (SM_init inst tbl F N c).inst = 0 ∧
      SM_get_exec_counter_machine (SM_init inst tbl F N c).inst = 0 ∧
      SM_get_trans_counter (SM_init inst tbl F N c).inst = 0) := by
  have hmod : F % U16MOD = F := Nat.mod_eq_of_lt hF
  cases inst with
  | none => simp [SM_init]
  | some s =>
    cases tbl with
    | none => simp [SM_init]
    | some states =>
      by_cases hc : N ≤ F ∨ N = 0
      · have : N = 0 ∨ N ≤ F := hc.symm
        simp [SM_init, hc, this]
      · have hNF : ¬N ≤ F := fun h2 => hc (Or.inl h2)
        have hN0 : ¬N = 0 := fun h2 => hc (Or.inr h2)
        cases h2 : (states F).onEntry <;>
          simp [SM_init, hc, hNF, hN0, h2, SM_get_state_number,
            SM_get_exec_counter_state, SM_get_exec_counter_machine,
            SM_get_trans_counter, SM_reset_instance, hmod]

/-- C8 (witness): a concrete valid initialization lands in state 1 with a
zero transition counter. -/
theorem C8_witness :
    SM_get_state_number (SM_init (some instZero) (some tblExec) 1 2 0).inst
      = 1 ∧
    SM_get_trans_counter (SM_init (some instZero) (some tblExec) 1 2 0).inst
      = 0 :=
  ⟨((C8_init_validation (some instZero) (some tblExec) 1 2 0
      (by decide)).2.2 rfl).1,
   ((C8_init_validation (some instZero) (some tblExec) 1 2 0
      (by decide)).2.2 rfl).2.2.2⟩

/-! ## Transition-engine helper lemmas -/

/-- The mode dispatch reports `SM_TRANS_ERR` exactly when the mode's
required callback is absent, and an erroring dispatch returns the instance
unchanged with no callback invoked. -/
theorem SM_Trans_dispatch_err (now : Nat) (s : SM_instance_t)
    (mode : SM_transision_mode) (State : Nat) :
    ((SM_Trans_dispatch now s mode State).status = .SM_TRANS_ERR ↔
      SM_required_absent s mode State) ∧
    ((SM_Trans_dispatch now s mode State).status = .SM_TRANS_ERR →
      SM_Trans_dispatch now s mode State = ⟨.SM_TRANS_ERR, s, []⟩) := by
  cases mode <;>
    first
    | (simp only [SM_Trans_dispatch, SM_required_absent]
       split <;> simp_all [SM_Trans_finish])
    | simp [SM_Trans_dispatch, SM_required_absent, SM_Trans_finish]

/-- The callbacks a successful mode dispatch performs, per the mode table of
the claims (exit of the current state, entry of the target, in that order). -/
def SM_mode_calls (s : SM_instance_t) (mode : SM_transision_mode)
    (State : Nat) : List SM_callback :=
  match mode with
  | .SM_TRANS_ENTRY_EXIT => [.exit s.ActualState, .entry State]
  | .SM_TRANS_ENTRY => [.entry State]
  | .SM_TRANS_EXIT => [.exit s.ActualState]
  | .SM_TRANS_FAST => []

/-- A successful mode dispatch performs the swap/record/callback protocol:
`PrevState` gets the pre-transition state, `ActualState` the target,
`TransTick` the current tick; the per-state counter resets, the transition
counter increments, the mode's callbacks run in order followed by `onTrans`
when registered, the entry behavior observes the target as `ActualState`
and the exit behavior observes the pre-transition state. -/
theorem SM_Trans_dispatch_ok (now : Nat) (s : SM_instance_t)
    (mode : SM_transision_mode) (State : Nat)
    (h : (SM_Trans_dispatch now s mode State).status = .SM_OK) :
    (SM_Trans_dispatch now s mode State).inst.PrevState = s.ActualState ∧
    (SM_Trans_dispatch now s mode State).inst.ActualState = State ∧
    (SM_Trans_dispatch now s mode State).inst.TransTick = SM_GET_TICK now ∧
    (SM_Trans_dispatch now s mode State).inst.StateExecutionCounter = 0 ∧
    (SM_Trans_dispatch now s mode State).inst.TransCounter =
      (s.TransCounter + 1) % U32MOD ∧
    calls (SM_Trans_dispatch now s mode State).events =
      SM_mode_calls s mode State ++
        (if s.onTrans then [SM_callback.onTrans] else []) ∧
    (∀ e ∈ (SM_Trans_dispatch now s mode State).events,
      e.cb = SM_callback.entry State → e.seen.ActualState = State) ∧
    (∀ e ∈ (SM_Trans_dispatch now s mode State).events,
      e.cb = SM_callback.exit s.ActualState →
        e.seen.ActualState = s.ActualState) := by
  cases mode <;>
    · simp only [SM_Trans_dispatch] at h ⊢
      first
      | (split at h <;>
          [skip; simp_all] <;>
          cases h2 : s.onTrans <;>
            simp_all [SM_Trans_finish, SM_mode_calls, calls])
      | (cases h2 : s.onTrans <;>
          simp_all [SM_Trans_finish, SM_mode_calls, calls])

/-- With a valid target index and no active unexpired lock, `SM_Trans`
reduces to the mode dispatch on an instance that agrees with the input on
every field the dispatch reads (only `TransitionLock` may have been
auto-cleared). -/
theorem SM_Trans_core_unlocked (now : Nat) (s : SM_instance_t)
    (mode : SM_transision_mode) (State : Nat)
    (hbound : ¬s.NumberOfStates ≤ State)
    (hlock : s.TransitionLock = true →
      tsub (SM_GET_TICK now) s.TransLockTick ≥ s.TransLockTimeout) :
    ∃ s', SM_Trans_core now s mode State =
        SM_Trans_dispatch now s' mode State ∧
      s'.SM_states = s.SM_states ∧ s'.ActualState = s.ActualState ∧
      s'.PrevState = s.PrevState ∧
      s'.StateExecutionCounter = s.StateExecutionCounter ∧
      s'.MachineExecutionCounter = s.MachineExecutionCounter ∧
      s'.TransCounter = s.TransCounter ∧ s'.onTrans = s.onTrans := by
  by_cases hl : s.TransitionLock = true
  · exact ⟨{ s with TransitionLock := false },
      by simp [SM_Trans_core, hbound, hl, hlock hl],
      rfl, rfl, rfl, rfl, rfl, rfl, rfl⟩
  · exact ⟨s, by simp [SM_Trans_core, hbound, hl],
      rfl, rfl, rfl, rfl, rfl, rfl, rfl⟩

/-! ## Claim C5 — transition rejection conditions -/

/-- C5: with no active unexpired transition lock, `SM_Trans` reports
`SM_TRANS_ERR` iff the target index is out of range or the mode's required
callback is absent (EntryExit demands both the current state's `onExit` and
the target's `onEntry` before either is invoked); an erroring call leaves
`ActualState`, `PrevState` and all counters unchanged and invokes nothing. -/
theorem C5_trans_error_iff (now : Nat) (s : SM_instance_t)
    (mode : SM_transision_mode) (State : Nat)
    (hlock : s.TransitionLock = true →
      tsub (SM_GET_TICK now) s.TransLockTick ≥ s.TransLockTimeout) :
    ((SM_Trans_core now s mode State).status = .SM_TRANS_ERR ↔
      (s.NumberOfStates ≤ State ∨ SM_required_absent s mode State)) ∧
    ((SM_Trans_core now s mode State).status = .SM_TRANS_ERR →
      (SM_Trans_core now s mode State).inst.ActualState = s.ActualState ∧
      (SM_Trans_core now s mode State).inst.PrevState = s.PrevState ∧
      (SM_Trans_core now s mode State).inst.StateExecutionCounter =
        s.StateExecutionCounter ∧
      (SM_Trans_core now s mode State).inst.MachineExecutionCounter =
        s.MachineExecutionCounter ∧
      (SM_Trans_core now s mode State).inst.TransCounter = s.TransCounter ∧
      (SM_Trans_core now s mode State).events = []) := by
  by_cases hbound : s.NumberOfStates ≤ State
  · simp [SM_Trans_core, hbound]
  · obtain ⟨s', heq, hst, hact, hprev, hsec, hmec, htc, hot⟩ :=
      SM_Trans_core_unlocked now s mode State hbound hlock
    rw [heq]
    have hd := SM_Trans_dispatch_err now s' mode State
    refine ⟨?_, ?_⟩
    · rw [hd.1]
      cases mode <;> simp [SM_required_absent, hst, hact, hbound]
    · intro herr
      rw [hd.2 herr]
      simp [hst, hact, hprev, hsec, hmec, htc]

/-- C5 (witness): an Entry-mode transition to a state without `onEntry`
errors out and invokes nothing. -/
theorem C5_witness :
    (SM_Trans_core 3 instExec .SM_TRANS_ENTRY 1).status = .SM_TRANS_ERR ∧
    (SM_Trans_core 3 instExec .SM_TRANS_ENTRY 1).events = [] := by
  have h := C5_trans_error_iff 3 instExec .SM_TRANS_ENTRY 1 (by decide)
  have hs : (SM_Trans_core 3 instExec .SM_TRANS_ENTRY 1).status =
      .SM_TRANS_ERR := h.1.mpr (Or.inr rfl)
  exact ⟨hs, (h.2 hs).2.2.2.2.2⟩

/-! ## Claim C4 — successful transition protocol -/

/-- C4: every successful `SM_Trans` (any mode, including Fast) sets
`PrevState` to the pre-transition `ActualState` and `ActualState` to the
target; in EntryExit mode `onExit` runs before the pointer swap and
`onEntry` after it, so the entry behavior observes the target as
`ActualState`; then `TransTick = now`, `onTrans` runs if registered, the
per-state exec counter resets to 0, `TransCounter` increments by exactly 1
and the call reports success. -/
theorem C4_trans_success (now : Nat) (s : SM_instance_t)
    (mode : SM_transision_mode) (State : Nat)
    (h : (SM_Trans_core now s mode State).status = .SM_OK) :
    (SM_Trans_core now s mode State).inst.PrevState = s.ActualState ∧
    (SM_Trans_core now s mode State).inst.ActualState = State ∧
    (SM_Trans_core now s mode State).inst.TransTick = SM_GET_TICK now ∧
    (SM_Trans_core now s mode State).inst.StateExecutionCounter = 0 ∧
    (SM_Trans_core now s mode State).inst.TransCounter =
      (s.TransCounter + 1) % U32MOD ∧
    calls (SM_Trans_core now s mode State).events =
      SM_mode_calls s mode State ++
        (if s.onTrans then [SM_callback.onTrans] else []) ∧
    (∀ e ∈ (SM_Trans_core now s mode State).events,
      e.cb = SM_callback.entry State → e.seen.ActualState = State) ∧
    (∀ e ∈ (SM_Trans_core now s mode State).events,
      e.cb = SM_callback.exit s.ActualState →
        e.seen.ActualState = s.ActualState) := by
  by_cases hbound : s.NumberOfStates ≤ State
  · simp [SM_Trans_core, hbound] at h
  · have hlock : s.TransitionLock = true →
        tsub (SM_GET_TICK now) s.TransLockTick ≥ s.TransLockTimeout := by
      intro hl
      by_contra hexp
      simp [SM_Trans_core, hbound, hl, hexp] at h
    obtain ⟨s', heq, hst, hact, hprev, hsec, hmec, htc, hot⟩ :=
      SM_Trans_core_unlocked now s mode State hbound hlock
    rw [heq] at h ⊢
    have hd := SM_Trans_dispatch_ok now s' mode State h
    have hmc : SM_mode_calls s' mode State = SM_mode_calls s mode State := by
      cases mode <;> simp [SM_mode_calls, hact]
    rw [hact, htc, hot, hmc] at hd
    exact hd

/-- C4 (witness): the EntryExit transition `0 → 1` on the full two-state
machine succeeds with the pointer swap recorded. -/
theorem C4_witness :
    (SM_Trans_core 5 instFull .SM_TRANS_ENTRY_EXIT 1).inst.PrevState =
      instFull.ActualState ∧
    (SM_Trans_core 5 instFull .SM_TRANS_ENTRY_EXIT 1).inst.ActualState = 1 :=
  ⟨(C4_trans_success 5 instFull .SM_TRANS_ENTRY_EXIT 1 rfl).1,
   (C4_trans_success 5 instFull .SM_TRANS_ENTRY_EXIT 1 rfl).2.1⟩

/-! ## Claim C3 — the execution gate -/

/-- C3: when the active state has an exec behavior and is in table range,
`SM_Execution` invokes it iff, after any break auto-expiry, `ExecBreak` is
clear and (`DelayTime = 0` or `now - lastExecTick ≥ DelayTime`); a passing
gate sets `lastExecTick = now`, clears `DelayTime`, invokes the behavior and
increments both execution counters, reporting success; a failing gate
reports `SM_EXEC_DELAYED` with no mutation beyond the break auto-clear. -/
theorem C3_exec_gate (now : Nat) (s : SM_instance_t)
    (hexec : (s.SM_states s.ActualState).onExec = true)
    (hrange : s.ActualState < s.NumberOfStates) :
    ((((SM_break_step now s).1.DelayTime = 0 ∨
        tsub (SM_GET_TICK now) (SM_break_step now s).1.lastExecTick ≥
          (SM_break_step now s).1.DelayTime) ∧
      (SM_break_step now s).1.ExecBreak = false) →
      (SM_Execution_core now s).status = .SM_OK ∧
      (SM_Execution_core now s).inst.lastExecTick = SM_GET_TICK now ∧
      (SM_Execution_core now s).inst.DelayTime = 0 ∧
      (SM_Execution_core now s).inst.StateExecutionCounter =
        (s.StateExecutionCounter + 1) % U32MOD ∧
      (SM_Execution_core now s).inst.MachineExecutionCounter =
        (s.MachineExecutionCounter + 1) % U32MOD ∧
      calls (SM_Execution_core now s).events =
        calls (SM_break_step now s).2 ++ [SM_callback.exec s.ActualState]) ∧
    (¬(((SM_break_step now s).1.DelayTime = 0 ∨
        tsub (SM_GET_TICK now) (SM_break_step now s).1.lastExecTick ≥
          (SM_break_step now s).1.DelayTime) ∧
      (SM_break_step now s).1.ExecBreak = false) →
      (SM_Execution_core now s).status = .SM_EXEC_DELAYED ∧
      (SM_Execution_core now s).inst = (SM_break_step now s).1 ∧
      calls (SM_Execution_core now s).events =
        calls (SM_break_step now s).2) := by
  cases hbk : s.ExecBreak
  · constructor <;> intro hg <;>
      (simp_all [SM_Execution_core, SM_break_step, SM_state_is_in_range,
        calls]
       all_goals (split <;> simp_all <;> omega))
  · by_cases hexp : s.ExecBlockTimeout ≤
        tsub (SM_GET_TICK now) s.ExecBlockTick
    · cases hbt : s.onBreakTimeout <;>
        (constructor <;> intro hg <;>
          (simp_all [SM_Execution_core, SM_break_step, SM_state_is_in_range,
            calls]
           all_goals (split <;> simp_all <;> omega)))
    · constructor <;> intro hg <;>
        (simp_all [SM_Execution_core, SM_break_step, SM_state_is_in_range,
          calls]
         all_goals (split <;> simp_all <;> omega))

/-- C3 (witness): at tick 0 the exec-only machine (no break, no delay)
executes: the gate passes and `DelayTime` stays 0. -/
theorem C3_witness :
    (instExec.SM_states instExec.ActualState).onExec = true ∧
    ((SM_Execution_core 0 instExec).status = .SM_OK ∧
      (SM_Execution_core 0 instExec).inst.DelayTime = 0) :=
  ⟨rfl,
    ⟨((C3_exec_gate 0 instExec rfl (by decide)).1 ⟨Or.inl (by decide),
        by decide⟩).1,
     ((C3_exec_gate 0 instExec rfl (by decide)).1 ⟨Or.inl (by decide),
        by decide⟩).2.2.1⟩⟩

/-- Two tick-source reads subtract like the ambient mathematical times. -/
theorem tsub_get_tick (now T : Nat) :
    tsub (SM_GET_TICK now) (SM_GET_TICK T) = tsub now T := by
  rw [SM_GET_TICK, SM_GET_TICK, tsub_mod_left, tsub_mod_right]

/-- The mode dispatch never touches `TransitionLock`. -/
theorem SM_Trans_dispatch_TransitionLock (now : Nat) (s : SM_instance_t)
    (mode : SM_transision_mode) (State : Nat) :
    (SM_Trans_dispatch now s mode State).inst.TransitionLock =
      s.TransitionLock := by
  cases mode <;>
    first
    | (simp only [SM_Trans_dispatch]
       split <;> simp [SM_Trans_finish])
    | simp [SM_Trans_dispatch, SM_Trans_finish]

/-! ## Claim C7 — transition-lock window -/

/-- C7: after `SM_trans_lock(W)` at tick `T`, a transition to a valid target
while `now - T < W` reports `SM_TRANS_LOCKED` and mutates nothing; once
`now - T ≥ W` the lock is cleared and the very same call behaves exactly as
a transition on the unlocked instance. -/
theorem C7_lock_window (s : SM_instance_t) (T W now : Nat)
    (mode : SM_transision_mode) (State : Nat)
    (hState : State < s.NumberOfStates) :
    (tsub now T < W →
      SM_Trans_core now (SM_trans_lock_core T s W).inst mode State =
        ⟨.SM_TRANS_LOCKED, (SM_trans_lock_core T s W).inst, []⟩) ∧
    (tsub now T ≥ W →
      SM_Trans_core now (SM_trans_lock_core T s W).inst mode State =
        SM_Trans_core now { (SM_trans_lock_core T s W).inst with TransitionLock := false } mode State ∧
      (SM_Trans_core now (SM_trans_lock_core T s W).inst mode State).inst.TransitionLock = false) := by
  have hnb : ¬s.NumberOfStates ≤ State := by omega
  constructor
  · intro hlt
    have hc : ¬W ≤ tsub (SM_GET_TICK now) (SM_GET_TICK T) := by
      rw [tsub_get_tick]; omega
    simp [SM_Trans_core, SM_trans_lock_core, hnb, hc]
  · intro hge
    have hc : W ≤ tsub (SM_GET_TICK now) (SM_GET_TICK T) := by
      rw [tsub_get_tick]; omega
    have hdl := SM_Trans_dispatch_TransitionLock now
      { (SM_trans_lock_core T s W).inst with TransitionLock := false }
      mode State
    constructor
    · simp [SM_Trans_core, SM_trans_lock_core, hnb, hc]
    · simp only [SM_Trans_core, SM_trans_lock_core] at hdl ⊢
      simp [hnb, hc] at hdl ⊢
      exact hdl

/-- C7 (witness): lock of width 10 armed at tick 100 on the full machine:
locked at tick 105, transparent at tick 110. -/
theorem C7_witness :
    tsub 105 100 < 10 ∧
    SM_Trans_core 105 (SM_trans_lock_core 100 instFull 10).inst
        .SM_TRANS_ENTRY_EXIT 1 =
      ⟨.SM_TRANS_LOCKED, (SM_trans_lock_core 100 instFull 10).inst, []⟩ :=
  ⟨by decide,
    (C7_lock_window instFull 100 10 105 .SM_TRANS_ENTRY_EXIT 1
      (by decide)).1 (by decide)⟩

/-! ## Claim C6 — execution-break window -/

/-- C6: after `SM_exec_break(W)` at tick `T`, an execution step while
`now - T < W` performs no callback and no mutation; the first step with
`now - T ≥ W` clears `ExecBreak`, fires `onBreakTimeout` exactly once when
registered, and then evaluates the exec gate in that same call exactly as
on the break-cleared instance (before the missing-behavior and delay
checks). -/
theorem C6_break_window (s : SM_instance_t) (T W now : Nat) :
    (tsub now T < W →
      (SM_Execution_core now (SM_exec_break_core T s W).inst).inst =
        (SM_exec_break_core T s W).inst ∧
      (SM_Execution_core now (SM_exec_break_core T s W).inst).events =
        []) ∧
    (tsub now T ≥ W →
      (SM_Execution_core now (SM_exec_break_core T s W).inst).status =
        (SM_Execution_core now { (SM_exec_break_core T s W).inst with ExecBreak := false }).status ∧
      (SM_Execution_core now (SM_exec_break_core T s W).inst).inst =
        (SM_Execution_core now { (SM_exec_break_core T s W).inst with ExecBreak := false }).inst ∧
      (SM_Execution_core now (SM_exec_break_core T s W).inst).events =
        (if s.onBreakTimeout then
          [⟨.onBreakTimeout,
            { (SM_exec_break_core T s W).inst with ExecBreak := false }⟩]
        else []) ++
        (SM_Execution_core now { (SM_exec_break_core T s W).inst with ExecBreak := false }).events ∧
      (SM_Execution_core now (SM_exec_break_core T s W).inst).inst.ExecBreak = false ∧
      (calls (SM_Execution_core now (SM_exec_break_core T s W).inst).events).count SM_callback.onBreakTimeout =
        (if s.onBreakTimeout then 1 else 0)) := by
  constructor
  · intro hlt
    have hc : ¬W ≤ tsub (SM_GET_TICK now) (SM_GET_TICK T) := by
      rw [tsub_get_tick]; omega
    cases hoe : (s.SM_states s.ActualState).onExec <;>
      simp [SM_Execution_core, SM_break_step, SM_exec_break_core, hc, hoe]
  · intro hge
    have hc : W ≤ tsub (SM_GET_TICK now) (SM_GET_TICK T) := by
      rw [tsub_get_tick]; omega
    cases hbt : s.onBreakTimeout <;>
      cases hoe : (s.SM_states s.ActualState).onExec <;>
        (by_cases hd : s.DelayTime = 0 ∨
            s.DelayTime ≤ tsub (SM_GET_TICK now) s.lastExecTick <;>
          (by_cases hr : s.ActualState < s.NumberOfStates <;>
            (simp_all [SM_Execution_core, SM_break_step, SM_exec_break_core,
              SM_state_is_in_range, calls]
             all_goals (split <;> simp_all <;> omega))))

/-- C6 (witness): break of width 10 armed at tick 50 on the exec-only
machine: at tick 55 nothing happens; at tick 60 the break clears and the
step executes as if unbroken. -/
theorem C6_witness :
    tsub 55 50 < 10 ∧
    (SM_Execution_core 55 (SM_exec_break_core 50 instExec 10).inst).events
      = [] ∧
    tsub 60 50 ≥ 10 ∧
    (SM_Execution_core 60 (SM_exec_break_core 50 instExec 10).inst).inst.ExecBreak = false :=
  ⟨by decide,
    ((C6_break_window instExec 50 10 55).1 (by decide)).2,
    by decide,
    ((C6_break_window instExec 50 10 60).2 (by decide)).2.2.2.1⟩

/-! ## Claim C2 — delay window -/

/-- C2 (counterexample): the claim dates the delay window from the tick `T`
of the `SM_exec_delay(D)` call, but the gate compares against
`lastExecTick`.  With `lastExecTick = 0`, a delay of 5 requested at tick 10
does not defer the step at tick `10 + 5 - 1 = 14`: the step succeeds
instead of reporting the deferred result. -/
theorem C2_counterexample :
    instExec.lastExecTick = 0 ∧
    (SM_Execution_core (10 + 5 - 1) (SM_exec_delay_core instExec 5).inst).status = .SM_OK ∧
    SM_operate_status.SM_OK ≠ .SM_EXEC_DELAYED := by
  refine ⟨rfl, ?_, by decide⟩
  rfl

/-- C2 (amended): the delay window is measured from `lastExecTick`; when
`SM_exec_delay(D)` is issued with `lastExecTick = T` (as when called from
inside the exec behavior that just ran at `T`), the step at `T + D - 1` is
deferred with no mutation, the step at `T + D` succeeds and resets
`DelayTime` to 0, and the delay is one-shot: an immediately following step
is not delayed. -/
theorem C2_delay_window (s : SM_instance_t) (T D : Nat)
    (hD : 0 < D) (hDm : D < TMOD)
    (hT : s.lastExecTick = T)
    (hbrk : s.ExecBreak = false)
    (hexec : (s.SM_states s.ActualState).onExec = true)
    (hrange : s.ActualState < s.NumberOfStates) :
    (SM_Execution_core (T + D - 1) (SM_exec_delay_core s D).inst).status = .SM_EXEC_DELAYED ∧
    (SM_Execution_core (T + D - 1) (SM_exec_delay_core s D).inst).inst = (SM_exec_delay_core s D).inst ∧
    (SM_Execution_core (T + D) (SM_exec_delay_core s D).inst).status = .SM_OK ∧
    (SM_Execution_core (T + D) (SM_exec_delay_core s D).inst).inst.DelayTime = 0 ∧
    (SM_Execution_core (T + D) (SM_Execution_core (T + D) (SM_exec_delay_core s D).inst).inst).status = .SM_OK := by
  have h1 : tsub (SM_GET_TICK (T + D - 1)) T = D - 1 := by
    rw [SM_GET_TICK, tsub_mod_left,
      show T + D - 1 = T + (D - 1) by omega, tsub_add_self]
    exact Nat.mod_eq_of_lt (by omega)
  have h2 : tsub (SM_GET_TICK (T + D)) T = D := by
    rw [SM_GET_TICK, tsub_mod_left, tsub_add_self]
    exact Nat.mod_eq_of_lt hDm
  have hD0 : ¬D = 0 := by omega
  have hD1 : ¬D ≤ D - 1 := by omega
  refine ⟨?_, ?_, ?_, ?_, ?_⟩ <;>
    simp [SM_Execution_core, SM_break_step, SM_exec_delay_core,
      SM_state_is_in_range, hbrk, hexec, hT, h1, h2, hD0, hD1, hrange]

/-- C2 (witness): on the exec-only machine with `lastExecTick = 0`, a delay
of 5 defers the step at tick 4 and admits it at tick 5. -/
theorem C2_witness :
    (SM_Execution_core (0 + 5 - 1) (SM_exec_delay_core instExec 5).inst).status = .SM_EXEC_DELAYED ∧
    (SM_Execution_core (0 + 5) (SM_exec_delay_core instExec 5).inst).status = .SM_OK :=
  ⟨(C2_delay_window instExec 0 5 (by decide) (by decide) rfl
      rfl rfl (by decide)).1,
   (C2_delay_window instExec 0 5 (by decide) (by decide) rfl
      rfl rfl (by decide)).2.2.1⟩

end StateMachine
